import Mathlib

/-!
Verification of the thread-flattening transform of `piazzagpt`
(`src/piazzagpt/main.py`, functions `_transform_post` and `transform`).

The embedding models the JSON shapes the Python code actually reads:
every field access in the source is a `dict.get` with a default, so each
field is an `Option`, with `Option.getD` playing the role of the default.
The one place the Python code can raise for a mapping-shaped input is
`child.get("history", [{}])[0]` — the `[{}]` default applies only when the
`"history"` key is absent; a present-but-empty list reaches `[0]` and
raises `IndexError`.  The flattener is therefore embedded as an
`Except`-valued function, with `Except.error` standing for that raise.
-/

/-- A revision record inside a `history` list: an optional mapping with
optional `subject` and `content` string fields. -/
structure HistoryEntry where
  subject : Option String
  content : Option String
deriving DecidableEq, Repr

/-- A grandchild record: the code only ever reads its `subject` field
(`child_answer.get("subject", "")`). -/
structure GrandChild where
  subject : Option String
deriving DecidableEq, Repr

/-- A child record of a thread, with the fields `_transform_post` reads:
`type`, `id`, `subject`, `num_favorites`, `history`, `children`. -/
structure Child where
  type : Option String
  id : Option String
  subject : Option String
  num_favorites : Option Int
  history : Option (List HistoryEntry)
  children : Option (List GrandChild)
deriving DecidableEq, Repr

/-- A raw thread (`post` argument of `_transform_post`), with the fields
the code reads: `id`, `history`, `children`, `num_favorites`. -/
structure Post where
  id : Option String
  history : Option (List HistoryEntry)
  children : Option (List Child)
  num_favorites : Option Int
deriving DecidableEq, Repr

/-- Metadata of a normalized record. `original_question_id` is only set
on follow-up records (the root record's metadata dict has no such key). -/
structure Metadata where
  is_follow_up : Bool
  upvotes : Int
  original_question_id : Option String
deriving DecidableEq, Repr

/-- A normalized output record. The root record's dict carries the keys
`question_id`, `subject`, `question`, `answer`, `metadata`; follow-up
dicts carry no `subject` key, modelled by `subject := none`. `answer` is
`Option String`: `none` is Python's `None` sentinel. -/
structure Record where
  question_id : String
  subject : Option String
  question : String
  answer : Option String
  metadata : Metadata
deriving DecidableEq, Repr

/-- Python truthiness of `item.get("subject")`: the key is present and the
string is non-empty. -/
def truthySubject (e : HistoryEntry) : Bool :=
  match e.subject with
  | some s => s ≠ ""
  | none => false

/-- `next((item for item in post.get("history", []) if item.get("subject")), {})`
— the first history entry with a truthy subject, if any. -/
def originalQuestionInfo (post : Post) : Option HistoryEntry :=
  (post.history.getD []).find? truthySubject

/-- `child.get("type", "") == "i_answer"`. -/
def isIAnswer (c : Child) : Bool :=
  c.type.getD "" == "i_answer"

/-- The instructor-answer scan (lines 133-140 of main.py):
`next((child.get("history", [{}])[0].get("content", None) for child in
post.get("children", []) if child.get("type", "") == "i_answer"), None)`.
The generator is lazy, so only the FIRST child of type `"i_answer"` is
evaluated.  If its `"history"` key is absent, the `[{}]` default yields an
entry with no `content`, hence `none`; if the key is present but the list
is empty, `[0]` raises `IndexError`, modelled as `Except.error ()`. -/
def instructorAnswer (children : List Child) : Except Unit (Option String) :=
  match children.find? isIAnswer with
  | none => .ok none
  | some c =>
    match c.history with
    | none => .ok none
    | some [] => .error ()
    | some (e :: _) => .ok e.content

/-- The root record dict literal (lines 143-149) has exactly five keys:
`question_id`, `subject`, `question`, `answer`, `metadata`.  The Python
fallback for a child id is `f"followup_{len(transformed_post)}"` where
`transformed_post` is that ROOT DICT (not the output list), so the counter
is this constant key count. -/
def rootRecordKeyCount : Nat := 5

/-- `next((child_answer.get("subject", "") for child_answer in
child.get("children", [])), None)` — the follow-up answer (lines 160-166):
the first grandchild's `subject` with default `""`, or `None` when the
child has no grandchildren. -/
def followUpAnswer (c : Child) : Option String :=
  match c.children.getD [] with
  | [] => none
  | gc :: _ => some (gc.subject.getD "")

/-- One iteration of the follow-up loop (lines 152-183) for a child that is
not an instructor answer. -/
def followupRecord (rootId : String) (c : Child) : Record :=
  { question_id := c.id.getD ("followup_" ++ toString rootRecordKeyCount)
    subject := none
    question := c.subject.getD ""
    answer := followUpAnswer c
    metadata :=
      { is_follow_up := true
        upvotes := (c.num_favorites.getD 0)
        original_question_id := some rootId } }

/-- `original_question_info.get("subject", "")` (line 122): the found
history entry's subject, or `""` when `next` fell back to the empty dict. -/
def originalQuestionTitle (post : Post) : String :=
  match originalQuestionInfo post with
  | some e => e.subject.getD ""
  | none => ""

/-- `original_question_info.get("content", "")` (line 123). -/
def originalQuestionContent (post : Post) : String :=
  match originalQuestionInfo post with
  | some e => e.content.getD ""
  | none => ""

/-- `_transform_post` (lines 112-185).  The `for`/`continue` loop over
`post.get("children", [])` keeps exactly the children whose type is not
`"i_answer"`, in order, and appends one record per kept child.  An
`IndexError` raised by the instructor-answer scan propagates out of the
function, modelled by the `Except.error` branch. -/
def transform_post (post : Post) : Except Unit (List Record) :=
  match instructorAnswer (post.children.getD []) with
  | .error e => .error e
  | .ok instructor_answer =>
    .ok
      ({ question_id := post.id.getD "original"
         subject := some (originalQuestionTitle post)
         question := originalQuestionContent post
         answer := instructor_answer
         metadata :=
           { is_follow_up := false
             upvotes := (post.num_favorites.getD 0)
             original_question_id := none } }
       :: ((post.children.getD []).filter (fun c => !isIAnswer c)).map
            (followupRecord (post.id.getD "original")))

/-- The Walker's per-record filter (lines 246-251):
`transformed_post.get("question", "") == "" or
transformed_post.get("answer", "") == ""`.  Both keys are always present
in records produced by `_transform_post`; `answer` may be `None`, and in
Python `None == ""` is `False`, so only a literal empty-string answer is
filtered — the `None` sentinel passes the filter. -/
def shouldPersist (r : Record) : Bool :=
  !(r.question == "" || r.answer == some "")

/-- The Walker's per-file write step: `for i, transformed_post in
enumerate(transformed_posts)`, skip filtered records, write the survivors
to `<basename>-<i>.json` where `i` is the index in the full list. -/
def persistRecords (base : String) (records : List Record) :
    List (String × Record) :=
  (records.enum.filter (fun p => shouldPersist p.2)).map
    (fun p => (base ++ "-" ++ toString p.1 ++ ".json", p.2))

/-- The Walker's file loop (lines 239-258).  Each input file either parses
to a `Post` (`some post`) or fails to read/parse (`none`, standing for the
exception `open`/`json.load` raises).  There is no `try`/`except` around
the loop body, so the first failure — a bad file, or an `IndexError`
escaping `_transform_post` — propagates and aborts the run; files written
before the failure remain on disk. Returns the written files and the name
of the failing file, if any. -/
def processFiles (files : List (String × Option Post)) :
    List (String × Record) × Option String :=
  match files with
  | [] => ([], none)
  | (name, none) :: _ => ([], some name)
  | (name, some post) :: rest =>
    match transform_post post with
    | .error _ => ([], some name)
    | .ok records =>
      let out := processFiles rest
      (persistRecords name records ++ out.1, out.2)

/-! ## Helper lemmas -/

/-- Eliminating a successful run of `transform_post`: the output is the
root record followed by one follow-up record per non-instructor-answer
child, in input order. -/
lemma transform_post_ok_elim (post : Post) (records : List Record)
    (h : transform_post post = .ok records) :
    ∃ ans, instructorAnswer (post.children.getD []) = .ok ans ∧
      records =
        ({ question_id := post.id.getD "original"
           subject := some (originalQuestionTitle post)
           question := originalQuestionContent post
           answer := ans
           metadata :=
             { is_follow_up := false
               upvotes := (post.num_favorites.getD 0)
               original_question_id := none } } : Record)
        :: ((post.children.getD []).filter (fun c => !isIAnswer c)).map
             (followupRecord (post.id.getD "original")) := by
  unfold transform_post at h
  cases hi : instructorAnswer (post.children.getD []) with
  | error e => rw [hi] at h; exact absurd h (by simp)
  | ok ans =>
    rw [hi] at h
    exact ⟨ans, rfl, by injection h with h'; exact h'.symm⟩

/-! ## Concrete example inputs -/

/-- A thread with two follow-up children, neither carrying an `id`. -/
def twoAnonChildrenPost : Post :=
  { id := none
    history := none
    num_favorites := none
    children := some
      [ { type := none, id := none, subject := some "a", num_favorites := none
          history := none, children := none }
      , { type := none, id := none, subject := some "b", num_favorites := none
          history := none, children := none } ] }

/-- A thread whose first instructor-answer child has a present but empty
`history` list. -/
def emptyHistoryIAnswerPost : Post :=
  { id := none
    history := none
    num_favorites := none
    children := some
      [ { type := some "i_answer", id := none, subject := none
          num_favorites := none, history := some [], children := none } ] }

/-- A thread with a non-empty question and no children at all: its root
record has a non-empty `question` and the `None`-sentinel `answer`. -/
def answerlessPost : Post :=
  { id := none
    history := some [{ subject := some "q?", content := some "qq" }]
    num_favorites := none
    children := none }

/-- The root record `transform_post` produces for `answerlessPost`. -/
def answerlessRoot : Record :=
  { question_id := "original"
    subject := some "q?"
    question := "qq"
    answer := none
    metadata := { is_follow_up := false, upvotes := 0
                  original_question_id := none } }

/-! ## Claim theorems -/

/-- C1 (code bug evaluation): on a thread whose two children both lack an
`id`, the flattener assigns BOTH of them the fallback identifier
`"followup_5"` — the Python counter is `len(transformed_post)`, the key
count of the root record dict (constant 5), not the output list's length —
so two children of the same thread collide, contrary to the claim that
fallback identifiers never collide within a thread.  The root fallback
`"original"` does behave as claimed. -/
theorem fallback_ids_collide :
    (transform_post twoAnonChildrenPost).toOption.map
        (fun rs => rs.map Record.question_id)
      = some ["original", "followup_5", "followup_5"] := by
  rfl

/-- C2 (code bug evaluation): on a thread whose first `"i_answer"` child
has a present-but-empty `history` list, `_transform_post` raises
`IndexError` (`child.get("history", [{}])[0]` — the `[{}]` default only
covers an absent key), contrary to the claim that the flattener never
raises and degrades the answer to the absent sentinel. -/
theorem empty_history_instructor_answer_raises :
    transform_post emptyHistoryIAnswerPost = .error () := by
  rfl

/-- C3 (counterexample): the flattener produces a record with a non-empty
`question` and the absent (`None`) `answer` sentinel, and the Walker's
filter persists it — `transformed_post.get("answer", "") == ""` compares
the stored `None` with `""` and `None == ""` is `False` in Python — so a
record with an absent answer IS written to disk, contrary to the claim. -/
theorem absent_answer_record_is_persisted :
    transform_post answerlessPost = .ok [answerlessRoot]
      ∧ answerlessRoot.question ≠ ""
      ∧ answerlessRoot.answer = none
      ∧ shouldPersist answerlessRoot = true := by
  refine ⟨rfl, ?_, rfl, rfl⟩
  decide

/-- C3 (amended): for every record in the flattener's output, the Walker
persists it if and only if its `question` is non-empty and its `answer` is
not the literal empty string; the absent (null) sentinel is NOT filtered,
so answerless records are persisted. -/
theorem persist_iff_question_nonempty_and_answer_not_empty_string
    (post : Post) (records : List Record) (r : Record)
    (_hok : transform_post post = .ok records) (_hmem : r ∈ records) :
    shouldPersist r = true ↔ r.question ≠ "" ∧ r.answer ≠ some "" := by
  unfold shouldPersist
  constructor
  · intro h
    simp only [Bool.not_eq_true', Bool.or_eq_false_iff, beq_eq_false_iff_ne] at h
    exact h
  · intro h
    simp only [Bool.not_eq_true', Bool.or_eq_false_iff, beq_eq_false_iff_ne]
    exact h

/-- C3 (witness): the amended persistence criterion, instantiated on the
root record of `answerlessPost`. -/
theorem persist_iff_witness :
    shouldPersist answerlessRoot = true
      ↔ answerlessRoot.question ≠ "" ∧ answerlessRoot.answer ≠ some "" :=
  persist_iff_question_nonempty_and_answer_not_empty_string
    answerlessPost [answerlessRoot] answerlessRoot rfl (by simp)

/-- A well-formed thread: one instructor answer ("42") and one follow-up
child (`"c1"`, question "why?", answered "because" by its grandchild). -/
def wellFormedPost : Post :=
  { id := none
    history := some [{ subject := some "T", content := some "C" }]
    num_favorites := none
    children := some
      [ { type := some "i_answer", id := none, subject := none
          num_favorites := none
          history := some [{ subject := none, content := some "42" }]
          children := none }
      , { type := none, id := some "c1", subject := some "why?"
          num_favorites := none, history := none
          children := some [{ subject := some "because" }] } ] }

/-- The output `transform_post` produces for `wellFormedPost`. -/
def wellFormedRecords : List Record :=
  [ { question_id := "original"
      subject := some "T"
      question := "C"
      answer := some "42"
      metadata := { is_follow_up := false, upvotes := 0
                    original_question_id := none } }
  , { question_id := "c1"
      subject := none
      question := "why?"
      answer := some "because"
      metadata := { is_follow_up := true, upvotes := 0
                    original_question_id := some "original" } } ]

/-- C4 (counterexample): a corpus of two files whose first cannot be
parsed.  The run aborts at the bad file with nothing written, even though
the second file on its own would be processed and produce one written
record — so a single bad input document DOES abort the whole run,
contrary to the claim that it is reported, skipped, and processing
continues. -/
theorem bad_file_aborts_despite_good_successor :
    processFiles [("bad", none), ("good", some wellFormedPost)]
        = ([], some "bad")
      ∧ (processFiles [("good", some wellFormedPost)]).1 ≠ [] := by
  constructor
  · rfl
  · decide

/-- C4 (amended): when the Walker encounters a file that cannot be read or
parsed as JSON, the exception propagates uncaught (`transform` has no
`try`/`except` around `json.load` or `_transform_post`): the run aborts at
that file, nothing further is written, and the remaining files are never
processed — whatever they contain. -/
theorem bad_file_aborts_run (name : String)
    (rest : List (String × Option Post)) :
    processFiles ((name, (none : Option Post)) :: rest) = ([], some name) := by
  rfl

/-- C5: whenever the flattener returns, it returns a non-empty sequence
whose first element has `metadata.is_follow_up = false` and whose
remaining elements all have `metadata.is_follow_up = true`. -/
theorem flatten_root_then_followups (post : Post) (records : List Record)
    (hok : transform_post post = .ok records) :
    records ≠ []
      ∧ records.head?.map (fun r => r.metadata.is_follow_up) = some false
      ∧ ∀ r ∈ records.tail, r.metadata.is_follow_up = true := by
  obtain ⟨ans, -, hrec⟩ := transform_post_ok_elim post records hok
  subst hrec
  refine ⟨by simp, rfl, ?_⟩
  intro r hr
  simp only [List.tail_cons, List.mem_map] at hr
  obtain ⟨c, -, rfl⟩ := hr
  rfl

/-- C5 (witness): the shape invariant instantiated on `wellFormedPost`;
its follow-up record indeed has `is_follow_up = true`. -/
theorem flatten_root_then_followups_witness :
    wellFormedRecords.head?.map (fun r => r.metadata.is_follow_up)
      = some false :=
  (flatten_root_then_followups wellFormedPost wellFormedRecords rfl).2.1

/-- C6: whenever the flattener returns, the output is the root record
first, followed by one record per child whose type is not `"i_answer"`,
in the children's original input order; in particular the number of
follow-up records equals the number of such children. -/
theorem flatten_count_and_order (post : Post) (records : List Record)
    (hok : transform_post post = .ok records) :
    records.length
        = ((post.children.getD []).filter (fun c => !isIAnswer c)).length + 1
      ∧ records.head?.map (fun r => r.metadata.is_follow_up) = some false
      ∧ records.tail
        = ((post.children.getD []).filter (fun c => !isIAnswer c)).map
            (followupRecord (post.id.getD "original")) := by
  obtain ⟨ans, -, hrec⟩ := transform_post_ok_elim post records hok
  subst hrec
  exact ⟨by simp, rfl, rfl⟩

/-- C6 (witness): on `wellFormedPost` (one instructor-answer child, one
follow-up child) the output length is the follow-up count plus one. -/
theorem flatten_count_and_order_witness :
    wellFormedRecords.length
      = ((wellFormedPost.children.getD []).filter
          (fun c => !isIAnswer c)).length + 1 :=
  (flatten_count_and_order wellFormedPost wellFormedRecords rfl).1

/-- C7: whenever the flattener returns, the root record's `answer` is the
`content` of the first history entry of the first child whose type is
`"i_answer"`, and the absent sentinel when no such child exists (or when
that child's `history` key is absent, or its first entry has no
`content`). -/
theorem root_answer_from_first_instructor_child (post : Post)
    (records : List Record) (hok : transform_post post = .ok records) :
    records.head?.map Record.answer =
      some (match (post.children.getD []).find? isIAnswer with
        | none => none
        | some c =>
          match c.history with
          | some (e :: _) => e.content
          | _ => none) := by
  obtain ⟨ans, hia, hrec⟩ := transform_post_ok_elim post records hok
  subst hrec
  simp only [List.head?_cons, Option.map_some]
  refine congrArg some ?_
  unfold instructorAnswer at hia
  cases hfind : (post.children.getD []).find? isIAnswer with
  | none => rw [hfind] at hia; injection hia with h; exact h.symm
  | some c =>
    rw [hfind] at hia
    replace hia : (match c.history with
        | none => (Except.ok none : Except Unit (Option String))
        | some [] => Except.error ()
        | some (e :: _) => Except.ok e.content) = Except.ok ans := hia
    show ans = match c.history with
      | some (e :: _) => e.content
      | _ => none
    cases hh : c.history with
    | none =>
      rw [hh] at hia
      injection hia with h
      rw [← h]
    | some l =>
      rw [hh] at hia
      cases l with
      | nil => exact absurd hia (by simp)
      | cons e es =>
        injection hia with h
        rw [← h]

/-- C7 (witness): the spec's own example — a thread whose instructor
answer's first history entry has content "42" yields root answer "42". -/
theorem root_answer_witness :
    wellFormedRecords.head?.map Record.answer = some (some "42") :=
  (root_answer_from_first_instructor_child
    wellFormedPost wellFormedRecords rfl).trans (by rfl)

/-- C8: whenever the flattener returns, each follow-up record's `answer`
is the `subject` field (default `""`) of the corresponding child's first
own child when the child has grandchildren, and the absent sentinel
otherwise. -/
theorem followup_answer_is_first_grandchild_subject (post : Post)
    (records : List Record) (hok : transform_post post = .ok records) :
    records.tail.map Record.answer =
      ((post.children.getD []).filter (fun c => !isIAnswer c)).map
        (fun c => match c.children.getD [] with
          | [] => none
          | gc :: _ => some (gc.subject.getD "")) := by
  obtain ⟨ans, -, hrec⟩ := transform_post_ok_elim post records hok
  subst hrec
  simp only [List.tail_cons, List.map_map]
  rfl

/-- C8 (witness): the spec's own example — the follow-up child answered by
a grandchild with subject "because" yields follow-up answer "because". -/
theorem followup_answer_witness :
    wellFormedRecords.tail.map Record.answer = [some "because"] :=
  (followup_answer_is_first_grandchild_subject
    wellFormedPost wellFormedRecords rfl).trans (by rfl)

/-- C9: whenever the flattener returns, the root record's title
(`subject`) and question text come from the first history entry whose
`subject` is truthy, and both default to the empty string when no such
entry exists (including when `history` is absent or empty). -/
theorem root_title_question_from_history (post : Post)
    (records : List Record) (hok : transform_post post = .ok records) :
    records.head?.map (fun r => (r.subject, r.question)) =
      some (match (post.history.getD []).find? truthySubject with
        | some e => (some (e.subject.getD ""), e.content.getD "")
        | none => (some "", "")) := by
  obtain ⟨ans, -, hrec⟩ := transform_post_ok_elim post records hok
  subst hrec
  simp only [List.head?_cons, Option.map_some]
  refine congrArg some ?_
  unfold originalQuestionTitle originalQuestionContent originalQuestionInfo
  cases hfe : (post.history.getD []).find? truthySubject <;> simp [hfe]

/-- C9 (witness): on `wellFormedPost`, whose first history entry has
subject "T" and content "C", title is "T" and question is "C". -/
theorem root_title_question_witness :
    wellFormedRecords.head?.map (fun r => (r.subject, r.question))
      = some (some "T", "C") :=
  (root_title_question_from_history
    wellFormedPost wellFormedRecords rfl).trans (by rfl)

/-- A follow-up child whose first grandchild has no `subject` field. -/
def subjectlessGrandchildChild : Child :=
  { type := none, id := some "c2", subject := some "how?"
    num_favorites := none, history := none
    children := some [{ subject := none }] }

/-- A follow-up child with no `children` field at all. -/
def childlessChild : Child :=
  { type := none, id := some "c3", subject := some "when?"
    num_favorites := none, history := none, children := none }

/-- C10: for a non-instructor-answer child whose first grandchild lacks a
`subject` field, the follow-up record's `answer` is the empty string,
whereas a child with no children at all gets the absent (`None`) sentinel
— the two cases are distinguishable in the flattener's output. -/
theorem subjectless_grandchild_vs_no_grandchild (rootId : String)
    (c c' : Child) (gc : GrandChild) (gcs : List GrandChild)
    (_hc : isIAnswer c = false) (_hc' : isIAnswer c' = false)
    (hgcs : c.children = some (gc :: gcs)) (hsubj : gc.subject = none)
    (hnone : c'.children = none) :
    (followupRecord rootId c).answer = some ""
      ∧ (followupRecord rootId c').answer = none
      ∧ (followupRecord rootId c).answer ≠ (followupRecord rootId c').answer := by
  simp [followupRecord, followUpAnswer, hgcs, hsubj, hnone]

/-- C10 (witness): the distinction instantiated on two concrete children. -/
theorem subjectless_grandchild_vs_no_grandchild_witness :
    (followupRecord "original" subjectlessGrandchildChild).answer = some ""
      ∧ (followupRecord "original" childlessChild).answer = none
      ∧ (followupRecord "original" subjectlessGrandchildChild).answer
        ≠ (followupRecord "original" childlessChild).answer :=
  subjectless_grandchild_vs_no_grandchild "original"
    subjectlessGrandchildChild childlessChild { subject := none } []
    (by decide) (by decide) rfl rfl rfl
